import Mathlib

/-!
Verification development for the reconnecting-websocket state machine
(reconnecting-websocket.js).  The single component is embedded as an
explicit state record together with a step function over environment
events (underlying-socket lifecycle events, the two timers, and the
caller-facing operations).  Callback invocations are recorded in an
emission list; each emission is tagged with whether the code invoked the
callback directly or marshaled it through the host scheduler
(the injected $timeout service).

Durations and random draws are modeled as rationals: the source works
with JS numbers produced by arithmetic on Math.random(), and the claims
under study only concern their ordered-field arithmetic.
-/

namespace ReconnectingWS

/-- WebSocket.CONNECTING readyState constant. -/
def CONNECTING : Nat := 0

/-- WebSocket.OPEN readyState constant. -/
def OPEN : Nat := 1

/-- WebSocket.CLOSING readyState constant. -/
def CLOSING : Nat := 2

/-- WebSocket.CLOSED readyState constant. -/
def CLOSED : Nat := 3

/-- Whether a callback was invoked directly inside a raw callback or
marshaled through the host scheduler ($timeout). -/
inductive Mode where
  | direct : Mode
  | deferred : Mode
deriving DecidableEq, Repr

/-- One caller-visible callback invocation, with its marshaling mode and,
for onreconnect, the arguments (retries + 1, reconnectInterval) the code
passes. -/
inductive Emit where
  | onopen (m : Mode) : Emit
  | onclose (m : Mode) : Emit
  | onconnecting (m : Mode) : Emit
  | onmessage (m : Mode) (data : String) : Emit
  | onerror (m : Mode) : Emit
  | onreconnect (m : Mode) (attempt : Nat) (interval : ℚ) : Emit
deriving DecidableEq, Repr

/-- The marshaling mode of an emission. -/
def Emit.mode : Emit → Mode
  | .onopen m => m
  | .onclose m => m
  | .onconnecting m => m
  | .onmessage m _ => m
  | .onerror m => m
  | .onreconnect m _ _ => m

/-- The instance state: public fields (url, tunables, readyState), the
closure-captured locals (retries, forcedClose, timedOut, the live socket
reference ws, the per-connect reconnectAttempt parameter), and the two
pending-timer flags (the connect timeout and the scheduled retry). -/
structure RWS where
  url : String
  timeoutInterval : ℚ
  reconnectInterval : ℚ
  initialReconnectInterval : ℚ
  maxReconnectInterval : ℚ
  retries : Nat
  readyState : Nat
  forcedClose : Bool
  timedOut : Bool
  wsLive : Bool
  wsOpen : Bool
  reconnectAttempt : Bool
  timeoutArmed : Bool
  retryScheduled : Bool
deriving DecidableEq, Repr

/-- Environment events driving the machine: underlying-socket lifecycle
events, the two timers firing (the retry timer carries the Math.random()
draw made inside updateReconnectInterval when it runs), and the public
operations close() and refresh(). -/
inductive Event where
  | wsOpen : Event
  | wsClose : Event
  | wsMessage (data : String) : Event
  | wsError : Event
  | timeoutFires : Event
  | retryFires (draw : ℚ) : Event
  | callClose : Event
  | callRefresh : Event

/-- Field initialization of the constructor body before connect runs:
defaults for the tunables, retries = 0, the no-op callbacks, and the
internal vars ws (null), forcedClose, timedOut. -/
def mkRWS (url : String) : RWS :=
  { url := url
    timeoutInterval := 2000
    reconnectInterval := 5000
    initialReconnectInterval := 5000
    maxReconnectInterval := 5 * 60 * 1000
    retries := 0
    readyState := CONNECTING
    forcedClose := false
    timedOut := false
    wsLive := false
    wsOpen := false
    reconnectAttempt := false
    timeoutArmed := false
    retryScheduled := false }

/-- resetReconnectInterval: retries = 0 and
reconnectInterval = initialReconnectInterval. -/
def resetReconnectInterval (s : RWS) : RWS :=
  { s with retries := 0, reconnectInterval := s.initialReconnectInterval }

/-- updateReconnectInterval: reconnectInterval =
min(R * T * F ^ N, M) with R = Math.random() + 1 (draw is the
Math.random() result), T = initialReconnectInterval, F = 2, N = retries,
M = maxReconnectInterval; then retries is incremented. -/
def updateReconnectInterval (draw : ℚ) (s : RWS) : RWS :=
  { s with
      reconnectInterval :=
        min ((draw + 1) * s.initialReconnectInterval * 2 ^ s.retries)
          s.maxReconnectInterval
      retries := s.retries + 1 }

/-- The connect function: create a new underlying WebSocket (readyState
of a fresh socket is CONNECTING, adopted into the public readyState),
invoke onconnecting directly, and arm the connect-timeout timer.  The
reconnectAttempt parameter is remembered for the close handler. -/
def connectFn (reconnectAttempt : Bool) (s : RWS) : RWS × List Emit :=
  ({ s with
      wsLive := true
      wsOpen := false
      readyState := CONNECTING
      reconnectAttempt := reconnectAttempt
      timeoutArmed := true },
   [Emit.onconnecting Mode.direct])

/-- The ws.onclose handler: adopt the closed readyState, cancel the
connect timeout, drop the socket reference; on a forced close invoke
onclose directly and stop; otherwise force readyState to CONNECTING,
defer onconnecting, defer onclose unless this close belongs to a
reconnect attempt or a local timeout, defer
onreconnect(retries + 1, reconnectInterval), and schedule the retry. -/
def closeHandler (s : RWS) : RWS × List Emit :=
  let s1 := { s with
      readyState := CLOSED
      timeoutArmed := false
      wsLive := false
      wsOpen := false }
  if s1.forcedClose then
    (s1, [Emit.onclose Mode.direct])
  else
    ({ s1 with readyState := CONNECTING, retryScheduled := true },
     [Emit.onconnecting Mode.deferred]
       ++ (if s1.reconnectAttempt || s1.timedOut then []
           else [Emit.onclose Mode.deferred])
       ++ [Emit.onreconnect Mode.deferred (s1.retries + 1)
             s1.reconnectInterval])

/-- One step of the machine on an environment event.  Timer events fire
only while their timer is pending (clearTimeout cancels);
underlying-socket events belong to the live socket only. -/
def step (s : RWS) (e : Event) : RWS × List Emit :=
  match e with
  | .wsOpen =>
      if s.wsLive && !s.wsOpen then
        (resetReconnectInterval
          { s with
              readyState := OPEN
              timeoutArmed := false
              wsOpen := true
              reconnectAttempt := false },
         [Emit.onopen Mode.deferred])
      else (s, [])
  | .wsClose =>
      if s.wsLive then closeHandler s else (s, [])
  | .wsMessage data =>
      if s.wsLive then (s, [Emit.onmessage Mode.deferred data])
      else (s, [])
  | .wsError =>
      if s.wsLive then (s, [Emit.onerror Mode.deferred]) else (s, [])
  | .timeoutFires =>
      if s.timeoutArmed then
        let r := closeHandler { s with timedOut := true }
        ({ r.1 with timedOut := false }, r.2)
      else (s, [])
  | .retryFires draw =>
      if s.retryScheduled then
        let r := connectFn true { s with retryScheduled := false }
        (updateReconnectInterval draw r.1, r.2)
      else (s, [])
  | .callClose =>
      if s.wsLive then closeHandler { s with forcedClose := true }
      else (s, [])
  | .callRefresh =>
      if s.wsLive then closeHandler s else (s, [])

/-- The constructor: initialize the fields and immediately call
connect(url); the url string stands where the boolean reconnectAttempt
parameter is expected, so the flag is the truthiness of url. -/
def construct (url : String) : RWS × List Emit :=
  connectFn (!url.isEmpty) (mkRWS url)

/-- Run a list of events, accumulating emissions in program order. -/
def run (s : RWS) : List Event → RWS × List Emit
  | [] => (s, [])
  | e :: es =>
      let r := step s e
      let r2 := run r.1 es
      (r2.1, r.2 ++ r2.2)

/-- Construct, then run a list of events. -/
def runFrom (url : String) (es : List Event) : RWS × List Emit :=
  let c := construct url
  let r := run c.1 es
  (r.1, c.2 ++ r.2)

/-- Number of onclose emissions in a list. -/
def countOnclose (l : List Emit) : Nat :=
  l.countP fun em => match em with | .onclose _ => true | _ => false

/-- Number of onconnecting emissions in a list. -/
def countOnconnecting (l : List Emit) : Nat :=
  l.countP fun em => match em with | .onconnecting _ => true | _ => false

/-- Number of onreconnect emissions in a list. -/
def countOnreconnect (l : List Emit) : Nat :=
  l.countP fun em => match em with | .onreconnect _ _ _ => true | _ => false

/-- this.send: forward to ws.send and return its result when ws is
non-null, else throw INVALID_STATE_ERR.  The underlying ws.send is the
parameter wsSend. -/
def send {α : Type} (wsSend : String → α) (s : RWS) (data : String) :
    Except String α :=
  if s.wsLive then Except.ok (wsSend data)
  else Except.error "INVALID_STATE_ERR : Pausing to reconnect websocket"

/-- One failed cycle: the live socket closes unplanned, and then the
scheduled retry fires with the given Math.random() draw (the retry
callback runs connect(true) followed by updateReconnectInterval). -/
def cycleStep (s : RWS) (draw : ℚ) : RWS :=
  (step (step s Event.wsClose).1 (Event.retryFires draw)).1

/-- Iterate failed cycles over a list of Math.random() draws. -/
def iterCycles (s : RWS) : List ℚ → RWS
  | [] => s
  | draw :: rest => iterCycles (cycleStep s draw) rest

/-- Invariant relating the live socket reference to the retry timer: a
pending retry exists only while no socket is live, because the retry
callback itself creates the next socket. -/
def LiveNoRetryPending (s : RWS) : Prop :=
  s.wsLive = true → s.retryScheduled = false

/-- The six caller-assignable callback slots of the instance; none
models an unassigned (undefined) slot.  A handler maps its event
argument to the list of effects it performs. -/
structure Callbacks where
  onopen : Option (String → List String)
  onclose : Option (String → List String)
  onconnecting : Option (String → List String)
  onmessage : Option (String → List String)
  onerror : Option (String → List String)
  onreconnect : Option (String → List String)

/-- Invoking a callback slot: an unassigned slot is a type error at the
call site; an assigned one returns the effects of its handler. -/
def invokeSlot (slot : Option (String → List String)) (arg : String) :
    Except String (List String) :=
  match slot with
  | none => Except.error "TypeError: callback is not a function"
  | some f => Except.ok (f arg)

/-- The callback slots as the constructor initializes them: every slot
holds a function that does nothing. -/
def initialCallbacks : Callbacks :=
  { onopen := some fun _ => []
    onclose := some fun _ => []
    onconnecting := some fun _ => []
    onmessage := some fun _ => []
    onerror := some fun _ => []
    onreconnect := some fun _ => [] }

end ReconnectingWS

namespace ReconnectingWS

/-- Helper: the close handler always leaves the socket reference null. -/
theorem closeHandler_wsLive (s : RWS) : (closeHandler s).1.wsLive = false := by
  cases hf : s.forcedClose <;> simp [closeHandler, hf]

/-- Helper: the close handler always cancels the connect timeout. -/
theorem closeHandler_timeoutArmed (s : RWS) :
    (closeHandler s).1.timeoutArmed = false := by
  cases hf : s.forcedClose <;> simp [closeHandler, hf]

/-- Helper: a state with no live socket and no pending timer is inert:
every event leaves it unchanged and emits nothing. -/
theorem terminal_step (t : RWS) (hL : t.wsLive = false)
    (hT : t.timeoutArmed = false) (hR : t.retryScheduled = false) :
    ∀ e, step t e = (t, []) := by
  intro e
  cases e <;> simp [step, hL, hT, hR]

/-- Helper: an inert state stays unchanged under any event list. -/
theorem terminal_run (t : RWS) (hL : t.wsLive = false)
    (hT : t.timeoutArmed = false) (hR : t.retryScheduled = false) :
    ∀ es, run t es = (t, []) := by
  intro es
  induction es with
  | nil => rfl
  | cons e rest ih =>
      simp [run, terminal_step t hL hT hR e, ih]

/-- C2: updateReconnectInterval sets reconnectInterval to
min(R * T * 2 ^ N, M) with R = Math.random() + 1 in [1, 2), T the
initialReconnectInterval, N the pre-increment retries and M the
maxReconnectInterval, then increments retries; and the retry-timer step
of the machine applies exactly this computation. -/
theorem C2_backoff_formula (s : RWS) (draw : ℚ)
    (h0 : 0 ≤ draw) (h1 : draw < 1) :
    1 ≤ draw + 1 ∧ draw + 1 < 2 ∧
    (updateReconnectInterval draw s).reconnectInterval
      = min ((draw + 1) * s.initialReconnectInterval * 2 ^ s.retries)
          s.maxReconnectInterval ∧
    (updateReconnectInterval draw s).retries = s.retries + 1 ∧
    (∀ t : RWS, t.retryScheduled = true →
      (step t (Event.retryFires draw)).1.reconnectInterval
        = min ((draw + 1) * t.initialReconnectInterval * 2 ^ t.retries)
            t.maxReconnectInterval ∧
      (step t (Event.retryFires draw)).1.retries = t.retries + 1) := by
  refine ⟨by linarith, by linarith, rfl, rfl, ?_⟩
  intro t ht
  constructor <;> simp [step, ht, connectFn, updateReconnectInterval]

/-- Witness for C2 at draw = 1/2 on a freshly initialized record. -/
theorem C2_backoff_formula_witness :
    (updateReconnectInterval (1 / 2) (mkRWS "ws://example")).reconnectInterval
      = min ((1 / 2 + 1) * (mkRWS "ws://example").initialReconnectInterval
          * 2 ^ (mkRWS "ws://example").retries)
          (mkRWS "ws://example").maxReconnectInterval ∧
    (updateReconnectInterval (1 / 2) (mkRWS "ws://example")).retries
      = (mkRWS "ws://example").retries + 1 := by
  have h := C2_backoff_formula (mkRWS "ws://example") (1 / 2)
    (by norm_num) (by norm_num)
  exact ⟨h.2.2.1, h.2.2.2.1⟩

/-- C4: on a successful open of the live socket the machine cancels the
connect timeout, resets retries to 0 and reconnectInterval to
initialReconnectInterval, clears the reconnect-attempt flag, adopts the
OPEN readyState, and defers onopen to the caller. -/
theorem C4_open_resets_backoff (s : RWS) (hlive : s.wsLive = true)
    (hnotopen : s.wsOpen = false) :
    (step s Event.wsOpen).1.retries = 0 ∧
    (step s Event.wsOpen).1.reconnectInterval = s.initialReconnectInterval ∧
    (step s Event.wsOpen).1.timeoutArmed = false ∧
    (step s Event.wsOpen).1.reconnectAttempt = false ∧
    (step s Event.wsOpen).1.readyState = OPEN ∧
    (step s Event.wsOpen).2 = [Emit.onopen Mode.deferred] := by
  refine ⟨?_, ?_, ?_, ?_, ?_, ?_⟩ <;>
    simp [step, hlive, hnotopen, resetReconnectInterval]

/-- Witness for C4 on the state right after construction. -/
theorem C4_open_resets_backoff_witness :
    (step (construct "ws://example").1 Event.wsOpen).1.retries = 0 ∧
    (step (construct "ws://example").1 Event.wsOpen).1.reconnectInterval
      = (construct "ws://example").1.initialReconnectInterval ∧
    (step (construct "ws://example").1 Event.wsOpen).1.timeoutArmed = false ∧
    (step (construct "ws://example").1 Event.wsOpen).1.reconnectAttempt
      = false ∧
    (step (construct "ws://example").1 Event.wsOpen).1.readyState = OPEN ∧
    (step (construct "ws://example").1 Event.wsOpen).2
      = [Emit.onopen Mode.deferred] :=
  C4_open_resets_backoff (construct "ws://example").1 (by decide) (by decide)

/-- C6: send forwards the payload to the live socket and returns its
result; with no live socket it fails with INVALID_STATE_ERR, and its
outcome does not depend on the underlying send at all (no I/O, no
buffering). -/
theorem C6_send_contract (α : Type) (f g : String → α) (s : RWS)
    (d : String) :
    (s.wsLive = true → send f s d = Except.ok (f d)) ∧
    (s.wsLive = false →
      send f s d
        = Except.error "INVALID_STATE_ERR : Pausing to reconnect websocket" ∧
      send f s d = send g s d) := by
  constructor
  · intro h
    simp [send, h]
  · intro h
    constructor <;> simp [send, h]

/-- Witness for C6: a live state (right after construction) forwards,
and a state with no socket (the pre-connect record) rejects. -/
theorem C6_send_contract_witness :
    send (fun d => d ++ "!") (construct "ws://example").1 "hi"
      = Except.ok "hi!" ∧
    send (fun d => d ++ "!") (mkRWS "ws://example") "hi"
      = Except.error "INVALID_STATE_ERR : Pausing to reconnect websocket" ∧
    send (fun d => d ++ "!") (mkRWS "ws://example") "hi"
      = send (fun _ => "other") (mkRWS "ws://example") "hi" := by
  refine ⟨?_, ?_⟩
  · exact (C6_send_contract String (fun d => d ++ "!") (fun _ => "other")
      (construct "ws://example").1 "hi").1 rfl
  · exact (C6_send_contract String (fun d => d ++ "!") (fun _ => "other")
      (mkRWS "ws://example") "hi").2 rfl

/-- C10: every caller-assignable callback slot is initialized to a no-op
function, so invoking any of them on any event succeeds and performs no
effect. -/
theorem C10_noop_callback_slots (arg : String) :
    invokeSlot initialCallbacks.onopen arg = Except.ok [] ∧
    invokeSlot initialCallbacks.onclose arg = Except.ok [] ∧
    invokeSlot initialCallbacks.onconnecting arg = Except.ok [] ∧
    invokeSlot initialCallbacks.onmessage arg = Except.ok [] ∧
    invokeSlot initialCallbacks.onerror arg = Except.ok [] ∧
    invokeSlot initialCallbacks.onreconnect arg = Except.ok [] :=
  ⟨rfl, rfl, rfl, rfl, rfl, rfl⟩

/-- C7: the constructor calls connect(url), so the URL string stands
where the boolean reconnectAttempt parameter is expected.  For a
nonempty URL the very first attempt is therefore flagged as a reconnect
attempt, and a close of the first socket before any open is suppressed:
no onclose reaches the caller, only onconnecting and onreconnect. -/
theorem C7_first_attempt_flagged :
    (construct "ws://example").1.reconnectAttempt = true ∧
    countOnclose (runFrom "ws://example" [Event.wsClose]).2 = 0 ∧
    countOnreconnect (runFrom "ws://example" [Event.wsClose]).2 = 1 ∧
    (construct "").1.reconnectAttempt = false := by
  decide

/-- C8: close() with no live socket is a no-op: the state (including
forcedClose) is unchanged and nothing is emitted, and a retry pending at
call time still fires and creates a new socket afterwards exactly as it
would have without the close() call. -/
theorem C8_close_noop_when_paused (s : RWS) (draw : ℚ)
    (h : s.wsLive = false) :
    step s Event.callClose = (s, []) ∧
    (s.retryScheduled = true →
      step (step s Event.callClose).1 (Event.retryFires draw)
          = step s (Event.retryFires draw) ∧
      (step s (Event.retryFires draw)).1.wsLive = true) := by
  refine ⟨by simp [step, h], ?_⟩
  intro hr
  refine ⟨by simp [step, h], ?_⟩
  simp [step, hr, connectFn, updateReconnectInterval]

/-- Witness for C8 in the pause after the first unplanned close. -/
theorem C8_close_noop_when_paused_witness :
    step (runFrom "ws://example" [Event.wsClose]).1 Event.callClose
      = ((runFrom "ws://example" [Event.wsClose]).1, []) ∧
    (step (runFrom "ws://example" [Event.wsClose]).1
        (Event.retryFires (1 / 2))).1.wsLive = true := by
  have h := C8_close_noop_when_paused
    (runFrom "ws://example" [Event.wsClose]).1 (1 / 2) (by decide)
  exact ⟨h.1, (h.2 (by decide)).2⟩

/-- C1: an unforced close emits onclose exactly when the closed socket
was neither a reconnect attempt nor closed by the local timeout; a
timeout-triggered close never emits onclose; a first unplanned
disconnect of an opened connection yields exactly one onclose over the
whole trace; and a disconnect during a retry attempt yields zero
additional onclose but one onconnecting and one onreconnect. -/
theorem C1_onclose_visibility :
    (∀ s : RWS, s.wsLive = true → s.forcedClose = false →
      countOnclose (step s Event.wsClose).2
        = if s.reconnectAttempt || s.timedOut then 0 else 1) ∧
    (∀ s : RWS, s.forcedClose = false → s.timeoutArmed = true →
      countOnclose (step s Event.timeoutFires).2 = 0) ∧
    countOnclose (runFrom "ws://example" [Event.wsOpen, Event.wsClose]).2
      = 1 ∧
    (countOnclose
        (step (runFrom "ws://example"
          [Event.wsOpen, Event.wsClose, Event.retryFires (1 / 2)]).1
          Event.wsClose).2 = 0 ∧
     countOnconnecting
        (step (runFrom "ws://example"
          [Event.wsOpen, Event.wsClose, Event.retryFires (1 / 2)]).1
          Event.wsClose).2 = 1 ∧
     countOnreconnect
        (step (runFrom "ws://example"
          [Event.wsOpen, Event.wsClose, Event.retryFires (1 / 2)]).1
          Event.wsClose).2 = 1) := by
  refine ⟨?_, ?_, by decide, by decide, by decide, by decide⟩
  · intro s hlive hforced
    cases hra : s.reconnectAttempt <;> cases htd : s.timedOut <;>
      simp [step, hlive, closeHandler, hforced, hra, htd, countOnclose]
  · intro s hforced harmed
    cases hra : s.reconnectAttempt <;>
      simp [step, harmed, closeHandler, hforced, hra, countOnclose]

/-- Witness for C1 on the opened-then-closed state: the first unplanned
close of an opened connection is reported. -/
theorem C1_onclose_visibility_witness :
    countOnclose
        (step (runFrom "ws://example" [Event.wsOpen]).1 Event.wsClose).2
      = if (runFrom "ws://example" [Event.wsOpen]).1.reconnectAttempt
            || (runFrom "ws://example" [Event.wsOpen]).1.timedOut
        then 0 else 1 :=
  C1_onclose_visibility.1 (runFrom "ws://example" [Event.wsOpen]).1
    (by decide) (by decide)

/-- Helper: the constructed state has no pending retry. -/
theorem construct_inv (url : String) :
    LiveNoRetryPending (construct url).1 := by
  intro _
  rfl

/-- Helper: every step preserves the live-socket/retry-timer
exclusion. -/
theorem step_inv (s : RWS) (e : Event) (h : LiveNoRetryPending s) :
    LiveNoRetryPending (step s e).1 := by
  cases e with
  | wsOpen =>
      intro hlive
      cases hl : s.wsLive <;> cases ho : s.wsOpen <;>
        simp [step, hl, ho, resetReconnectInterval] at hlive ⊢ <;>
        exact h hl
  | wsClose =>
      intro hlive
      cases hl : s.wsLive <;>
        simp [step, hl, closeHandler_wsLive] at hlive
  | wsMessage data =>
      intro hlive
      cases hl : s.wsLive <;> simp [step, hl] at hlive ⊢
      exact h hl
  | wsError =>
      intro hlive
      cases hl : s.wsLive <;> simp [step, hl] at hlive ⊢
      exact h hl
  | timeoutFires =>
      intro hlive
      cases hta : s.timeoutArmed <;>
        simp [step, hta, closeHandler_wsLive] at hlive ⊢
      exact h hlive
  | retryFires draw =>
      intro hlive
      cases hrs : s.retryScheduled <;>
        simp [step, hrs, connectFn, updateReconnectInterval] at hlive ⊢
  | callClose =>
      intro hlive
      cases hl : s.wsLive <;>
        simp [step, hl, closeHandler_wsLive] at hlive
  | callRefresh =>
      intro hlive
      cases hl : s.wsLive <;>
        simp [step, hl, closeHandler_wsLive] at hlive

/-- Helper: runs preserve the live-socket/retry-timer exclusion. -/
theorem run_inv (s : RWS) (es : List Event) (h : LiveNoRetryPending s) :
    LiveNoRetryPending (run s es).1 := by
  induction es generalizing s with
  | nil => exact h
  | cons e rest ih => exact ih (step s e).1 (step_inv s e h)

/-- Helper: every state reachable from construction satisfies the
live-socket/retry-timer exclusion. -/
theorem runFrom_inv (url : String) (es : List Event) :
    LiveNoRetryPending (runFrom url es).1 :=
  run_inv (construct url).1 es (construct_inv url)

/-- C5: in any reachable state with a live socket, close() sets
forcedClose, invokes onclose exactly once, ends with readyState CLOSED
and no socket, and leaves a terminal state: every further event list
changes nothing and emits nothing (in particular no new socket is ever
created and forcedClose stays true). -/
theorem C5_forced_close_terminal (url : String) (es : List Event)
    (hlive : (runFrom url es).1.wsLive = true) :
    (step (runFrom url es).1 Event.callClose).1.forcedClose = true ∧
    (step (runFrom url es).1 Event.callClose).1.readyState = CLOSED ∧
    (step (runFrom url es).1 Event.callClose).1.wsLive = false ∧
    (step (runFrom url es).1 Event.callClose).2
      = [Emit.onclose Mode.direct] ∧
    countOnclose (step (runFrom url es).1 Event.callClose).2 = 1 ∧
    (∀ es2, run (step (runFrom url es).1 Event.callClose).1 es2
        = ((step (runFrom url es).1 Event.callClose).1, [])) := by
  have hrs : (runFrom url es).1.retryScheduled = false :=
    runFrom_inv url es hlive
  have hstep : step (runFrom url es).1 Event.callClose
      = closeHandler { (runFrom url es).1 with forcedClose := true } := by
    simp [step, hlive]
  rw [hstep]
  refine ⟨rfl, rfl, rfl, rfl, rfl, ?_⟩
  exact terminal_run _ rfl rfl hrs

/-- Witness for C5 on the state right after construction. -/
theorem C5_forced_close_terminal_witness :
    (step (runFrom "ws://example" []).1 Event.callClose).1.forcedClose
      = true ∧
    countOnclose (step (runFrom "ws://example" []).1 Event.callClose).2
      = 1 := by
  have h := C5_forced_close_terminal "ws://example" [] (by decide)
  exact ⟨h.1, h.2.2.2.2.1⟩

/-- C9 as stated is false: construction invokes onconnecting directly
inside connect rather than marshaling it through the host scheduler. -/
theorem C9_marshaling_counterexample :
    ¬ (∀ em ∈ (construct "ws://example").2, em.mode = Mode.deferred) := by
  decide

/-- Helper: each emission of the close handler is deferred except the
directly invoked onclose of the forced-close branch. -/
theorem closeHandler_emissions (s : RWS) (em : Emit)
    (hm : em ∈ (closeHandler s).2) :
    em.mode = Mode.deferred ∨ em = Emit.onclose Mode.direct := by
  by_cases hf : s.forcedClose = true
  · simp [closeHandler, hf] at hm
    exact Or.inr hm
  · have hf2 : s.forcedClose = false := by
      cases hfc : s.forcedClose
      · rfl
      · exact absurd hfc hf
    by_cases hsup : (s.reconnectAttempt || s.timedOut) = true
    · simp [closeHandler, hf2, hsup] at hm
      rcases hm with rfl | rfl <;> exact Or.inl rfl
    · have hsup2 : (s.reconnectAttempt || s.timedOut) = false := by
        cases hb : (s.reconnectAttempt || s.timedOut)
        · rfl
        · exact absurd hb hsup
      simp [closeHandler, hf2, hsup2] at hm
      rcases hm with rfl | rfl | rfl <;> exact Or.inl rfl

/-- C9 amended: every callback emission of every step is marshaled
through the host scheduler except the onconnecting invoked directly at
connect initiation and the onclose invoked directly on a forced close;
construction itself emits exactly a direct onconnecting. -/
theorem C9_amended_marshaling :
    (∀ (s : RWS) (e : Event), ∀ em ∈ (step s e).2,
      em.mode = Mode.deferred ∨ em = Emit.onconnecting Mode.direct ∨
        em = Emit.onclose Mode.direct) ∧
    (∀ url : String,
      (construct url).2 = [Emit.onconnecting Mode.direct]) := by
  constructor
  · intro s e em hm
    cases e with
    | wsOpen =>
        by_cases hc : (s.wsLive && !s.wsOpen) = true <;>
          simp [step, hc] at hm
        subst hm
        exact Or.inl rfl
    | wsClose =>
        cases hl : s.wsLive <;> simp [step, hl] at hm
        rcases closeHandler_emissions s em hm with h | h
        · exact Or.inl h
        · exact Or.inr (Or.inr h)
    | wsMessage data =>
        cases hl : s.wsLive <;> simp [step, hl] at hm
        subst hm
        exact Or.inl rfl
    | wsError =>
        cases hl : s.wsLive <;> simp [step, hl] at hm
        subst hm
        exact Or.inl rfl
    | timeoutFires =>
        cases hta : s.timeoutArmed <;> simp [step, hta] at hm
        rcases closeHandler_emissions { s with timedOut := true } em hm
          with h | h
        · exact Or.inl h
        · exact Or.inr (Or.inr h)
    | retryFires draw =>
        cases hrs : s.retryScheduled <;>
          simp [step, hrs, connectFn] at hm
        subst hm
        exact Or.inr (Or.inl rfl)
    | callClose =>
        cases hl : s.wsLive <;> simp [step, hl] at hm
        rcases closeHandler_emissions
          { s with forcedClose := true } em hm with h | h
        · exact Or.inl h
        · exact Or.inr (Or.inr h)
    | callRefresh =>
        cases hl : s.wsLive <;> simp [step, hl] at hm
        rcases closeHandler_emissions s em hm with h | h
        · exact Or.inl h
        · exact Or.inr (Or.inr h)
  · intro url
    rfl

/-- Witness for the amended C9: the forced-close onclose is one of the
two allowed direct invocations. -/
theorem C9_amended_marshaling_witness :
    Emit.mode (Emit.onclose Mode.direct) = Mode.deferred ∨
      Emit.onclose Mode.direct = Emit.onconnecting Mode.direct ∨
      Emit.onclose Mode.direct = Emit.onclose Mode.direct :=
  C9_amended_marshaling.1 (construct "ws://example").1 Event.callClose
    (Emit.onclose Mode.direct) (by decide)

/-- Helper: a failed cycle on an unforced live state ends live again,
with the reconnect flag set, the timers rearmed, and exactly one backoff
computation applied to the backoff fields. -/
theorem cycleStep_eq (s : RWS) (draw : ℚ) (hf : s.forcedClose = false)
    (hl : s.wsLive = true) :
    cycleStep s draw =
      { s with
          readyState := CONNECTING
          wsLive := true
          wsOpen := false
          reconnectAttempt := true
          timeoutArmed := true
          retryScheduled := false
          reconnectInterval :=
            min ((draw + 1) * s.initialReconnectInterval * 2 ^ s.retries)
              s.maxReconnectInterval
          retries := s.retries + 1 } := by
  simp [cycleStep, step, hl, closeHandler, hf, connectFn,
    updateReconnectInterval]

/-- Helper: iterated failed cycles keep the state live and unforced,
keep the tunables, and advance retries by the number of cycles. -/
theorem iterCycles_invariant (draws : List ℚ) :
    ∀ s : RWS, s.forcedClose = false → s.wsLive = true →
      (iterCycles s draws).forcedClose = false ∧
      (iterCycles s draws).wsLive = true ∧
      (iterCycles s draws).initialReconnectInterval
        = s.initialReconnectInterval ∧
      (iterCycles s draws).maxReconnectInterval
        = s.maxReconnectInterval ∧
      (iterCycles s draws).retries = s.retries + draws.length := by
  induction draws with
  | nil =>
      intro s hf hl
      exact ⟨hf, hl, rfl, rfl, rfl⟩
  | cons d rest ih =>
      intro s hf hl
      simp only [iterCycles]
      have hc := cycleStep_eq s d hf hl
      have h2 := ih (cycleStep s d) (by rw [hc]; exact hf) (by rw [hc])
      refine ⟨h2.1, h2.2.1, ?_, ?_, ?_⟩
      · rw [h2.2.2.1, hc]
      · rw [h2.2.2.2.1, hc]
      · rw [h2.2.2.2.2, hc]
        show s.retries + 1 + rest.length = s.retries + (rest.length + 1)
        omega

/-- Helper: appending one more draw runs one more cycle at the end. -/
theorem iterCycles_append (s : RWS) (l : List ℚ) (d : ℚ) :
    iterCycles s (l ++ [d]) = cycleStep (iterCycles s l) d := by
  induction l generalizing s with
  | nil => rfl
  | cons a rest ih =>
      simp only [List.cons_append, iterCycles]
      exact ih (cycleStep s a)

/-- Helper: the value of reconnectInterval right after the (k+1)-th
failed cycle from a fresh state is min((draw_k + 1) * T * 2 ^ k, M). -/
theorem iterCycles_value (s : RWS) (draws : List ℚ)
    (hretries : s.retries = 0) (hfc : s.forcedClose = false)
    (hlive : s.wsLive = true) (k : Nat) (hk : k < draws.length) :
    (iterCycles s (draws.take (k + 1))).reconnectInterval
      = min ((draws[k] + 1) * s.initialReconnectInterval * 2 ^ k)
          s.maxReconnectInterval := by
  have htake : draws.take (k + 1) = draws.take k ++ [draws[k]] :=
    (List.take_concat_get' draws k hk).symm
  have hinv := iterCycles_invariant (draws.take k) s hfc hlive
  have hlen : (draws.take k).length = k := by
    rw [List.length_take]
    omega
  have hc := cycleStep_eq (iterCycles s (draws.take k)) (draws[k])
    hinv.1 hinv.2.1
  rw [htake, iterCycles_append, hc]
  show min ((draws[k] + 1)
        * (iterCycles s (draws.take k)).initialReconnectInterval
        * 2 ^ (iterCycles s (draws.take k)).retries)
      (iterCycles s (draws.take k)).maxReconnectInterval = _
  rw [hinv.2.2.1, hinv.2.2.2.1, hinv.2.2.2.2, hretries, hlen,
    Nat.zero_add]

/-- C3: over any run of consecutive failed cycles from a fresh backoff
state with draws in [0, 1) (so R = draw + 1 in [1, 2)), the successive
reconnectInterval values are non-decreasing, stay at most the ceiling
maxReconnectInterval, stay at least initialReconnectInterval once one
backoff computation has occurred, and the value after cycle n + 1 lies
between 1 * T * 2 ^ n and 2 * T * 2 ^ n clipped to the ceiling. -/
theorem C3_backoff_monotone_bounded (s : RWS) (draws : List ℚ) (n : Nat)
    (hretries : s.retries = 0)
    (hfresh : s.reconnectInterval = s.initialReconnectInterval)
    (hfc : s.forcedClose = false) (hlive : s.wsLive = true)
    (hT : 0 < s.initialReconnectInterval)
    (hTM : s.initialReconnectInterval ≤ s.maxReconnectInterval)
    (hdraws : ∀ d ∈ draws, 0 ≤ d ∧ d < 1)
    (hn : n < draws.length) :
    (iterCycles s (draws.take n)).reconnectInterval
        ≤ (iterCycles s (draws.take (n + 1))).reconnectInterval ∧
    s.initialReconnectInterval
        ≤ (iterCycles s (draws.take (n + 1))).reconnectInterval ∧
    (iterCycles s (draws.take (n + 1))).reconnectInterval
        ≤ s.maxReconnectInterval ∧
    min (1 * s.initialReconnectInterval * 2 ^ n) s.maxReconnectInterval
        ≤ (iterCycles s (draws.take (n + 1))).reconnectInterval ∧
    (iterCycles s (draws.take (n + 1))).reconnectInterval
        ≤ min (2 * s.initialReconnectInterval * 2 ^ n)
            s.maxReconnectInterval := by
  have hval := iterCycles_value s draws hretries hfc hlive
  have hmem : draws[n] ∈ draws := List.getElem_mem hn
  have hd := hdraws (draws[n]) hmem
  have hR1 : (1 : ℚ) ≤ draws[n] + 1 := by linarith [hd.1]
  have hR2 : draws[n] + 1 ≤ 2 := by linarith [hd.2]
  have hpow : (0 : ℚ) < 2 ^ n := by positivity
  have hpow1 : (1 : ℚ) ≤ 2 ^ n := one_le_pow₀ (by norm_num)
  have hTle : s.initialReconnectInterval
      ≤ (draws[n] + 1) * s.initialReconnectInterval * 2 ^ n := by
    nlinarith [mul_pos hT hpow]
  have hbase : s.initialReconnectInterval
      ≤ (iterCycles s (draws.take (n + 1))).reconnectInterval := by
    rw [hval n hn]
    exact le_min hTle hTM
  refine ⟨?_, hbase, ?_, ?_, ?_⟩
  · cases n with
    | zero =>
        have h0 : (iterCycles s (draws.take 0)).reconnectInterval
            = s.initialReconnectInterval := by
          rw [show draws.take 0 = [] from rfl]
          exact hfresh
        rw [h0]
        exact hbase
    | succ m =>
        have hm : m < draws.length := by omega
        have hdm := hdraws (draws[m]) (List.getElem_mem hm)
        have hpm : (0 : ℚ) < 2 ^ m := by positivity
        rw [hval m hm, hval (m + 1) hn]
        refine min_le_min ?_ le_rfl
        have e1 : (0 : ℚ) ≤ (2 - (draws[m] + 1))
            * (s.initialReconnectInterval * 2 ^ m) :=
          mul_nonneg (by linarith [hdm.2]) (by positivity)
        have e2 : (0 : ℚ) ≤ ((draws[m + 1] + 1) - 1)
            * (s.initialReconnectInterval * 2 ^ m) := by
          have hd2 := hdraws (draws[m + 1]) (List.getElem_mem hn)
          exact mul_nonneg (by linarith [hd2.1]) (by positivity)
        rw [pow_succ]
        nlinarith [e1, e2]
  · rw [hval n hn]
    exact min_le_right _ _
  · rw [hval n hn]
    refine min_le_min ?_ le_rfl
    nlinarith [mul_pos hT hpow]
  · rw [hval n hn]
    refine min_le_min ?_ le_rfl
    nlinarith [mul_pos hT hpow]

/-- Witness for C3 on the constructed state with one draw of 1/2. -/
theorem C3_backoff_monotone_bounded_witness :
    (iterCycles (construct "ws://example").1
        (List.take 0 [(1 : ℚ) / 2])).reconnectInterval
      ≤ (iterCycles (construct "ws://example").1
        (List.take 1 [(1 : ℚ) / 2])).reconnectInterval ∧
    (iterCycles (construct "ws://example").1
        (List.take 1 [(1 : ℚ) / 2])).reconnectInterval
      ≤ (construct "ws://example").1.maxReconnectInterval := by
  have h := C3_backoff_monotone_bounded (construct "ws://example").1
    [(1 : ℚ) / 2] 0 (by decide) (by rfl) (by decide) (by decide)
    (by norm_num [construct, connectFn, mkRWS])
    (by norm_num [construct, connectFn, mkRWS])
    (by norm_num) (by decide)
  exact ⟨h.1, h.2.2.1⟩

end ReconnectingWS
